import Mathlib

/-
  Verification of the YourGPT service-worker cache policy.

  Shallow embedding of the two service-worker sources of the repository:
  `sw.js` (plain cache-first worker) and the unnamed variant (cache-first
  with a development-mode network-first prelude).  Requests, responses and
  the Cache Storage API are modelled as explicit data; the asynchronous
  handlers become pure functions from their inputs (request, network
  behaviour, store contents, platform-failure flags) to an outcome together
  with the final store contents and counts of network calls / store reads.
-/

set_option autoImplicit false

namespace YourGPT

/-- Stored or live HTTP response descriptor: status code, response type
    marker (`"basic"` for same-origin) and an opaque body. -/
structure Response where
  status : Nat
  rtype : String
  body : String
deriving DecidableEq, Repr

/-- The fields of a request the worker inspects: `method`,
    `new URL(request.url)`'s `protocol`, `hostname`, `origin`,
    the full `url` string and `request.destination`. -/
structure Request where
  method : String
  url : String
  protocol : String
  hostname : String
  origin : String
  destination : String
deriving DecidableEq, Repr

/-- One named cache: a key-to-response association keyed by request URL
    (only GET requests are ever cached, so the URL identifies the entry). -/
abbrev Store := List (String × Response)

/-- The origin's Cache Storage: the named caches in creation order. -/
abbrev Stores := List (String × Store)

/-- JavaScript `String.prototype.includes`: `pat` occurs as a contiguous
    substring of `s`. -/
def strIncludes (s pat : String) : Bool :=
  (List.range (s.length + 1)).any (fun i => pat.data.isPrefixOf (s.data.drop i))

/-- The service-worker global location: the parts the source reads. -/
structure Location where
  hostname : String
  port : String
  origin : String
deriving DecidableEq, Repr

/-- Development-mode detection (`isDevelopment` in the source): hostname is
    `localhost` or `127.0.0.1` or contains `local`, or the port is `3000`,
    `8080` or `5000`. -/
def isDevelopmentOf (loc : Location) : Bool :=
  loc.hostname == "localhost" || loc.hostname == "127.0.0.1" ||
  strIncludes loc.hostname "local" ||
  loc.port == "3000" || loc.port == "8080" || loc.port == "5000"

/-- Decimal digit list of a natural number, most significant first, as the
    JavaScript number-to-string conversion produces inside a template
    literal. -/
def decDigits (n : Nat) : List Nat :=
  if _h : n < 10 then [n] else decDigits (n / 10) ++ [n % 10]
termination_by n
decreasing_by exact Nat.div_lt_self (by omega) (by omega)

/-- A decimal digit rendered as a character. -/
def digitChar (d : Nat) : Char :=
  match d with
  | 0 => '0' | 1 => '1' | 2 => '2' | 3 => '3' | 4 => '4'
  | 5 => '5' | 6 => '6' | 7 => '7' | 8 => '8' | 9 => '9'
  | _ => '!'

/-- Decimal string of a natural number (JavaScript `${n}` for integral
    numbers). -/
def natToDec (n : Nat) : String :=
  ⟨(decDigits n).map digitChar⟩

/-- Value of a most-significant-first decimal digit list (inverse of
    `decDigits`, used to prove generation identifiers distinct). -/
def decVal (l : List Nat) : Nat :=
  l.foldl (fun a d => 10 * a + d) 0

/-- The constant `CACHE_NAME` as a function of the mode and of `Date.now()` at startup:
    a timestamped generation identifier in development, the fixed
    `yourgpt-v1.0.0` in production. -/
def cacheNameOf (isDev : Bool) (now : Nat) : String :=
  if isDev then "yourgpt-dev-" ++ natToDec now else "yourgpt-v1.0.0"

/-- The seed list `urlsToCache` of both sources. -/
def urlsToCache : List String :=
  ["/", "/index.html", "/manifest.json",
   "https://cdn.jsdelivr.net/npm/marked/marked.min.js",
   "https://fonts.googleapis.com/css2?family=Inter:wght@400;500;600;700&display=swap"]

/-- Browser-extension URL schemes the fetch handler refuses to intercept. -/
def extensionSchemes : List String :=
  ["chrome-extension:", "chrome:", "moz-extension:", "ms-browser-extension:"]

/-- The four allow-listed cross-origin hostname substrings. -/
def allowedHosts : List String :=
  ["cdn.tailwindcss.com", "cdn.jsdelivr.net", "fonts.googleapis.com", "supabase.co"]

/-- Request classification: `true` means the handler returns before calling
    `respondWith`, so the platform handles the request natively.  Mirrors
    the three early returns of the fetch handler. -/
def passThrough (locOrigin : String) (req : Request) : Bool :=
  req.method != "GET" ||
  extensionSchemes.contains req.protocol ||
  (req.origin != locOrigin &&
    !strIncludes req.hostname "cdn.tailwindcss.com" &&
    !strIncludes req.hostname "cdn.jsdelivr.net" &&
    !strIncludes req.hostname "fonts.googleapis.com" &&
    !strIncludes req.hostname "supabase.co")

/-- Lookup in one cache (`cache.match` restricted to one store). -/
def storeGet : Store → String → Option Response
  | [], _ => none
  | (k, v) :: rest, key => if k = key then some v else storeGet rest key

/-- Model of `cache.put`: replace the entry for `key` if present, else append it. -/
def storePut : Store → String → Response → Store
  | [], key, r => [(key, r)]
  | (k, v) :: rest, key, r =>
      if k = key then (key, r) :: rest else (k, v) :: storePut rest key r

/-- Model of `caches.match`: search every named cache in order and return the first
    stored response for the key. -/
def cachesMatch : Stores → String → Option Response
  | [], _ => none
  | (_, s) :: rest, key =>
      match storeGet s key with
      | some r => some r
      | none => cachesMatch rest key

/-- Name of the cache `cachesMatch` would answer from (an observer used to
    state freshness properties; not part of the platform API). -/
def lookupStoreName : Stores → String → Option String
  | [], _ => none
  | (n, s) :: rest, key =>
      match storeGet s key with
      | some _ => some n
      | none => lookupStoreName rest key

/-- Model of `caches.open(name)` followed by `cache.put(key, r)`: update the named
    cache, creating it (at the end, as the platform does) if absent. -/
def cachePut : Stores → String → String → Response → Stores
  | [], name, key, r => [(name, [(key, r)])]
  | (n, s) :: rest, name, key, r =>
      if n = name then (n, storePut s key r) :: rest
      else (n, s) :: cachePut rest name key r

/-- Lookup of `key` inside the cache named `name` only. -/
def storesLookup : Stores → String → String → Option Response
  | [], _, _ => none
  | (n, s) :: rest, name, key =>
      if n = name then storeGet s key else storesLookup rest name key

/-- Kind of error a rejected fetch task carries: the live network error
    rethrown at the end of the fallback chain, or a Cache Storage operation
    raising at an unguarded `await`. -/
inductive ErrKind
  | netErr
  | storeErr
deriving DecidableEq, Repr

/-- What the promise handed to `event.respondWith` does: resolve with a
    response, resolve with `undefined` (no response), or reject. -/
inductive FetchOutcome
  | respond (r : Response)
  | respondNone
  | reject (e : ErrKind)
deriving DecidableEq, Repr

/-- Result of running one fetch task: its outcome, the Cache Storage
    contents afterwards, how many live network fetches were issued and how
    many `caches.match` lookups were attempted. -/
structure FetchResult where
  outcome : FetchOutcome
  stores : Stores
  netCalls : Nat
  cacheReads : Nat
deriving DecidableEq, Repr

/-- The live network: the result of the i-th `fetch` call issued by the
    task (`Except.error` models a rejected fetch). -/
abbrev Network := Nat → Except Unit Response

/-- Lines 100-134 of the unnamed worker: fetch from the network; non-200 or
    non-basic responses are returned uncached; valid responses are cached
    unless in development mode the URL contains `index.html`; the
    `caches.open`/`cache.put` pair sits in a `try`/`catch`, so a raising put
    (`putRaises`) is swallowed.  On network failure, a document-destination
    request falls back to the stored `/index.html` (this `caches.match` is
    not guarded, so it rejects when the store raises); otherwise the network
    error is rethrown.  `n` and `reads` are the counts accumulated so far. -/
def fetchAndCache (isDev : Bool) (cacheName : String) (req : Request)
    (matchRaises putRaises : Bool) (net : Network) (st : Stores)
    (n reads : Nat) : FetchResult :=
  match net n with
  | .ok r =>
      if r.status = 200 ∧ r.rtype = "basic" then
        let st' :=
          if (!isDev || !strIncludes req.url "index.html") && !putRaises then
            cachePut st cacheName req.url r
          else st
        ⟨.respond r, st', n + 1, reads⟩
      else ⟨.respond r, st, n + 1, reads⟩
  | .error _ =>
      if req.destination = "document" then
        if matchRaises then ⟨.reject .storeErr, st, n + 1, reads + 1⟩
        else
          match cachesMatch st "/index.html" with
          | some off => ⟨.respond off, st, n + 1, reads + 1⟩
          | none => ⟨.reject .netErr, st, n + 1, reads + 1⟩
      else ⟨.reject .netErr, st, n + 1, reads⟩

/-- Lines 93-134 of the unnamed worker: the `await caches.match` at line 94
    is not guarded by any `try`/`catch`, so when the store raises
    (`matchRaises`) the whole task rejects.  A hit is returned only outside
    development mode; otherwise the task continues with the network. -/
def cacheFirst (isDev : Bool) (cacheName : String) (req : Request)
    (matchRaises putRaises : Bool) (net : Network) (st : Stores)
    (n : Nat) : FetchResult :=
  if matchRaises then ⟨.reject .storeErr, st, n, 1⟩
  else
    match cachesMatch st req.url with
    | some c =>
        if isDev then fetchAndCache isDev cacheName req matchRaises putRaises net st n 1
        else ⟨.respond c, st, n, 1⟩
    | none => fetchAndCache isDev cacheName req matchRaises putRaises net st n 1

/-- The `respondWith` body of the unnamed worker (lines 79-135): in
    development mode a network-first prelude returns any 200 live response
    directly; in every other case the task proceeds cache-first. -/
def runFetch (isDev : Bool) (cacheName : String) (req : Request)
    (matchRaises putRaises : Bool) (net : Network) (st : Stores) : FetchResult :=
  if isDev then
    match net 0 with
    | .ok r =>
        if r.status = 200 then ⟨.respond r, st, 1, 0⟩
        else cacheFirst isDev cacheName req matchRaises putRaises net st 1
    | .error _ => cacheFirst isDev cacheName req matchRaises putRaises net st 1
  else cacheFirst isDev cacheName req matchRaises putRaises net st 0

/-- What the fetch event listener does: return early (pass-through) or call
    `event.respondWith` with a fetch task. -/
inductive HandlerResult
  | passthrough
  | intercept (r : FetchResult)
deriving DecidableEq, Repr

/-- The fetch event listener of the unnamed worker: classification followed
    by the `respondWith` body. -/
def fetchHandler (isDev : Bool) (cacheName locOrigin : String) (req : Request)
    (matchRaises putRaises : Bool) (net : Network) (st : Stores) : HandlerResult :=
  if passThrough locOrigin req then .passthrough
  else .intercept (runFetch isDev cacheName req matchRaises putRaises net st)

/-- Cache Storage contents after the fetch event listener ran: unchanged on
    pass-through. -/
def handlerStores (st : Stores) : HandlerResult → Stores
  | .passthrough => st
  | .intercept r => r.stores

/-- Network fetches issued by the fetch event listener. -/
def handlerNetCalls : HandlerResult → Nat
  | .passthrough => 0
  | .intercept r => r.netCalls

/-- Store lookups attempted by the fetch event listener. -/
def handlerReads : HandlerResult → Nat
  | .passthrough => 0
  | .intercept r => r.cacheReads

/-- The `respondWith` body of `sw.js` (lines 63-110): cache-first with no
    development mode.  A raising `caches.match` is caught by the outer
    `.catch`, which falls back to a plain network fetch.  A network failure
    on a document-destination request resolves with the (possibly empty)
    result of `caches.match` for `/index.html`; on any other destination the
    `.catch` callback returns `undefined`, so the task resolves with no
    response instead of rejecting. -/
def runFetchSW (cacheName : String) (req : Request) (matchRaises : Bool)
    (net : Network) (st : Stores) : FetchResult :=
  if matchRaises then
    match net 0 with
    | .ok r => ⟨.respond r, st, 1, 1⟩
    | .error _ => ⟨.reject .netErr, st, 1, 1⟩
  else
    match cachesMatch st req.url with
    | some c => ⟨.respond c, st, 0, 1⟩
    | none =>
        match net 0 with
        | .ok r =>
            if r.status = 200 ∧ r.rtype = "basic" then
              ⟨.respond r, cachePut st cacheName req.url r, 1, 1⟩
            else ⟨.respond r, st, 1, 1⟩
        | .error _ =>
            if req.destination = "document" then
              match cachesMatch st "/index.html" with
              | some off => ⟨.respond off, st, 1, 2⟩
              | none => ⟨.respondNone, st, 1, 2⟩
            else ⟨.respondNone, st, 1, 1⟩

/-- The fetch event listener of `sw.js`: same classification, then its
    `respondWith` body. -/
def fetchHandlerSW (cacheName locOrigin : String) (req : Request)
    (matchRaises : Bool) (net : Network) (st : Stores) : HandlerResult :=
  if passThrough locOrigin req then .passthrough
  else .intercept (runFetchSW cacheName req matchRaises net st)

/-- A settled promise as `Promise.allSettled` reports it. -/
inductive Settle
  | fulfilled
  | rejected
deriving DecidableEq, Repr

/-- The promise `cache.add(url)` of the install handler: resolves when the
    seed fetch-and-store succeeds, rejects otherwise. -/
def addSeed (seedOk : String → Bool) (u : String) : Except Unit Unit :=
  if seedOk u then .ok () else .error ()

/-- Line 35 of the unnamed worker (line 20 of `sw.js`):
    `cache.add(url).catch(error => null)` — the `.catch` turns every
    rejection into a fulfilled `null`. -/
def addSeedCaught (seedOk : String → Bool) (u : String) : Except Unit Unit :=
  match addSeed seedOk u with
  | .ok x => .ok x
  | .error _ => .ok ()

/-- How `Promise.allSettled` classifies one promise. -/
def settleOf : Except Unit Unit → Settle
  | .ok _ => .fulfilled
  | .error _ => .rejected

/-- Report of a best-effort fan-out: final store contents and the tallied
    `successful`/`failed` counts the handler logs. -/
structure Report where
  stores : Stores
  successful : Nat
  failed : Nat
deriving DecidableEq, Repr

/-- Model of `caches.open(name)`: create the named cache (at the end) if absent. -/
def cachesOpen (st : Stores) (name : String) : Stores :=
  if st.any (fun s => s.1 = name) then st else st ++ [(name, [])]

/-- The install handler: open the current generation's cache, attempt each
    seed independently (a failing seed stores nothing), and tally the
    `Promise.allSettled` statuses of the caught `cache.add` promises.
    `seedResp` is the response the seed fetch would store on success. -/
def installRun (cacheName : String) (urls : List String)
    (seedOk : String → Bool) (seedResp : String → Response)
    (st : Stores) : Report :=
  let st0 := cachesOpen st cacheName
  let st1 := urls.foldl
    (fun acc u => if seedOk u then cachePut acc cacheName u (seedResp u) else acc) st0
  let settles := urls.map (fun u => settleOf (addSeedCaught seedOk u))
  ⟨st1, settles.count .fulfilled, settles.count .rejected⟩

/-- One `caches.delete(n)` settling: the platform may raise (`deleteOk n`
    false → rejected); deleting an absent name resolves (with `false`) and
    is still fulfilled.  Names equal to the current generation are mapped to
    `Promise.resolve()`. -/
def deleteSettle (cacheName : String) (deleteOk : String → Bool) (n : String) : Settle :=
  if n = cacheName then .fulfilled
  else if deleteOk n then .fulfilled else .rejected

/-- The activate handler's `waitUntil` body over an explicit list of cache
    names (what `caches.keys()` returned): every name other than the current
    generation gets an independent `caches.delete`; a cache survives exactly
    when its name is the current one, was not enumerated, or its delete
    raised.  The `Promise.allSettled` statuses are tallied. -/
def activateRun (cacheName : String) (deleteOk : String → Bool)
    (names : List String) (st : Stores) : Report :=
  let settles := names.map (deleteSettle cacheName deleteOk)
  let st' := st.filter
    (fun s => s.1 = cacheName || !names.contains s.1 || !deleteOk s.1)
  ⟨st', settles.count .fulfilled, settles.count .rejected⟩

/-- The activate handler as the source runs it: `caches.keys()` enumerates
    exactly the names of the existing caches. -/
def activateHandler (cacheName : String) (deleteOk : String → Bool)
    (st : Stores) : Report :=
  activateRun cacheName deleteOk (st.map Prod.fst) st

/-- A decoded push payload: `title` is optional (`data.title || 'YourGPT'`),
    `body` is read as-is. -/
structure PushPayload where
  title : Option String
  body : String
deriving DecidableEq, Repr

/-- An externally visible action a lifecycle handler requests. -/
inductive SWAction
  | showNotification (title body : String)
deriving DecidableEq, Repr

/-- The push handler: `event.data` absent (`if (event.data)` falsy) does
    nothing; a payload whose `.json()` throws is caught and skipped; a
    parsed payload requests one notification titled `data.title` or the
    `YourGPT` default. -/
def pushHandler (eventData : Option (Except Unit PushPayload)) : List SWAction :=
  match eventData with
  | none => []
  | some (.error _) => []
  | some (.ok d) => [.showNotification (d.title.getD "YourGPT") d.body]

/-- Concrete same-origin 200/basic response used for witnesses. -/
def exResp : Response := ⟨200, "basic", "hello"⟩

/-- Concrete stored copy of the app shell used for witnesses. -/
def exShell : Response := ⟨200, "basic", "shell"⟩

/-- The worker's origin in the witness scenarios. -/
def exOrigin : String := "https://yourgpt.app"

/-- A cacheable same-origin GET request for a script. -/
def exReq : Request :=
  ⟨"GET", "https://yourgpt.app/app.js", "https:", "yourgpt.app",
   "https://yourgpt.app", "script"⟩

/-- A cacheable same-origin navigation request. -/
def exDocReq : Request :=
  ⟨"GET", "https://yourgpt.app/page", "https:", "yourgpt.app",
   "https://yourgpt.app", "document"⟩

/-- A cacheable same-origin GET request with a non-document destination. -/
def exNonDocReq : Request :=
  ⟨"GET", "https://yourgpt.app/data.json", "https:", "yourgpt.app",
   "https://yourgpt.app", ""⟩

/-- A development-mode request for the app shell. -/
def exShellReq : Request :=
  ⟨"GET", "http://localhost:3000/index.html", "http:", "localhost",
   "http://localhost:3000", "document"⟩

/-- A network that answers every fetch with `exResp`. -/
def netOk : Network := fun _ => .ok exResp

/-- A network on which every fetch rejects. -/
def netFail : Network := fun _ => .error ()

/-- Cache Storage holding the production generation with two entries. -/
def exStore : Stores :=
  [("yourgpt-v1.0.0",
    [("https://yourgpt.app/app.js", exResp), ("/index.html", exShell)])]

/-- Cache Storage holding only the app shell. -/
def exShellStore : Stores := [("yourgpt-v1.0.0", [("/index.html", exShell)])]

/-- The seed fetch-and-store outcome in the install witness: the CDN script
    seed fails, every other seed succeeds. -/
def exSeedOk : String → Bool :=
  fun u => u != "https://cdn.jsdelivr.net/npm/marked/marked.min.js"

/-- The response a successful seed fetch stores in the install witness. -/
def exSeedResp : String → Response := fun u => ⟨200, "basic", u⟩

end YourGPT

namespace YourGPT

example : strIncludes "yourgpt/index.html?x=1" "index.html" = true := by decide

example : strIncludes "localhost" "local" = true := by decide

example : strIncludes "cdn.example.org" "supabase.co" = false := by decide

example :
    cachesMatch [("a", [("/x", ⟨200, "basic", "b1"⟩)]), ("b", [("/y", ⟨200, "basic", "b2"⟩)])] "/y" =
      some ⟨200, "basic", "b2"⟩ := by decide

example : natToDec 1734 = "1734" := by simp [natToDec, decDigits, digitChar]

theorem storeGet_storePut_self (s : Store) (key : String) (r : Response) :
    storeGet (storePut s key r) key = some r := by
  induction s with
  | nil => simp [storePut, storeGet]
  | cons p rest ih =>
      obtain ⟨k, v⟩ := p
      by_cases h : k = key
      · simp [storePut, h, storeGet]
      · simp [storePut, h, storeGet, ih]

theorem cachesMatch_none_storesLookup (st : Stores) (name key : String)
    (h : cachesMatch st key = none) : storesLookup st name key = none := by
  induction st with
  | nil => simp [storesLookup]
  | cons p rest ih =>
      obtain ⟨n, s⟩ := p
      cases hg : storeGet s key with
      | some r => simp [cachesMatch, hg] at h
      | none =>
          simp only [cachesMatch, hg] at h
          by_cases hn : n = name
          · simp [storesLookup, hn, hg]
          · simp [storesLookup, hn, ih h]

theorem storesLookup_cachePut_self (st : Stores) (name key : String) (r : Response) :
    storesLookup (cachePut st name key r) name key = some r := by
  induction st with
  | nil => simp [cachePut, storesLookup, storeGet]
  | cons p rest ih =>
      obtain ⟨n, s⟩ := p
      by_cases hn : n = name
      · simp [cachePut, hn, storesLookup, storeGet_storePut_self]
      · simp [cachePut, hn, storesLookup, ih]

theorem lookupStoreName_mem (st : Stores) (key n : String)
    (h : lookupStoreName st key = some n) : ∃ s ∈ st, s.1 = n := by
  induction st with
  | nil => simp [lookupStoreName] at h
  | cons p rest ih =>
      obtain ⟨m, s⟩ := p
      cases hg : storeGet s key with
      | some r =>
          simp only [lookupStoreName, hg, Option.some.injEq] at h
          exact ⟨(m, s), by simp, h⟩
      | none =>
          simp only [lookupStoreName, hg] at h
          obtain ⟨s', hs', hn⟩ := ih h
          exact ⟨s', by simp [hs'], hn⟩

theorem count_settles (l : List Settle) :
    l.count .fulfilled + l.count .rejected = l.length := by
  induction l with
  | nil => simp
  | cons a rest ih =>
      cases a <;> simp [List.count_cons, ih] <;> omega

theorem contains_of_mem_map_fst (st : Stores) (s : String × Store) (h : s ∈ st) :
    (st.map Prod.fst).contains s.1 = true := by
  have : s.1 ∈ st.map Prod.fst := List.mem_map_of_mem Prod.fst h
  exact List.elem_eq_true_of_mem this

theorem decVal_decDigits (n : Nat) : decVal (decDigits n) = n := by
  induction n using Nat.strong_induction_on with
  | _ n ih =>
      rw [decDigits]
      by_cases h : n < 10
      · rw [dif_pos h]; simp [decVal]
      · rw [dif_neg h]
        have hlt : n / 10 < n := Nat.div_lt_self (by omega) (by omega)
        have hv := ih (n / 10) hlt
        simp only [decVal, List.foldl_append] at *
        rw [hv]
        simp only [List.foldl_cons, List.foldl_nil]
        omega

theorem decDigits_lt (n : Nat) : ∀ d ∈ decDigits n, d < 10 := by
  induction n using Nat.strong_induction_on with
  | _ n ih =>
      rw [decDigits]
      by_cases h : n < 10
      · rw [dif_pos h]; intro d hd; simp at hd; omega
      · rw [dif_neg h]
        intro d hd
        rcases List.mem_append.mp hd with h1 | h2
        · exact ih (n / 10) (Nat.div_lt_self (by omega) (by omega)) d h1
        · simp at h2; omega

theorem digitChar_inj {d e : Nat} (hd : d < 10) (he : e < 10)
    (h : digitChar d = digitChar e) : d = e := by
  interval_cases d <;> interval_cases e <;> revert h <;> decide

theorem map_digitChar_inj : ∀ (l1 l2 : List Nat), (∀ d ∈ l1, d < 10) →
    (∀ d ∈ l2, d < 10) → l1.map digitChar = l2.map digitChar → l1 = l2
  | [], [], _, _, _ => rfl
  | [], _ :: _, _, _, h => by simp at h
  | _ :: _, [], _, _, h => by simp at h
  | a :: l1, b :: l2, h1, h2, h => by
      simp only [List.map_cons, List.cons.injEq] at h
      have hab : a = b := digitChar_inj (h1 a (by simp)) (h2 b (by simp)) h.1
      have tail := map_digitChar_inj l1 l2 (fun d hd => h1 d (by simp [hd]))
        (fun d hd => h2 d (by simp [hd])) h.2
      simp [hab, tail]

theorem natToDec_data_inj {a b : Nat}
    (h : (natToDec a).data = (natToDec b).data) : a = b := by
  have heq := map_digitChar_inj (decDigits a) (decDigits b)
    (decDigits_lt a) (decDigits_lt b) h
  have ha := decVal_decDigits a
  have hb := decVal_decDigits b
  rw [← ha, ← hb, heq]

theorem cacheNameOf_dev_inj {t1 t2 : Nat}
    (h : cacheNameOf true t1 = cacheNameOf true t2) : t1 = t2 := by
  simp only [cacheNameOf, if_pos] at h
  have hd := congrArg String.data h
  rw [String.data_append, String.data_append] at hd
  exact natToDec_data_inj (List.append_cancel_left hd)

theorem fetchAndCache_stores_dev (cacheName : String) (req : Request)
    (mr pr : Bool) (net : Network) (st : Stores) (n reads : Nat)
    (hidx : strIncludes req.url "index.html" = true) :
    (fetchAndCache true cacheName req mr pr net st n reads).stores = st := by
  unfold fetchAndCache
  cases net n with
  | ok r =>
      by_cases hv : r.status = 200 ∧ r.rtype = "basic"
      · simp [hv, hidx]
      · simp [hv]
  | error e =>
      by_cases hd : req.destination = "document"
      · cases mr with
        | true => simp [hd]
        | false => cases ho : cachesMatch st "/index.html" <;> simp [hd, ho]
      · simp [hd]

theorem le_fetchAndCache_reads (isDev : Bool) (cacheName : String) (req : Request)
    (mr pr : Bool) (net : Network) (st : Stores) (n reads : Nat) :
    reads ≤ (fetchAndCache isDev cacheName req mr pr net st n reads).cacheReads := by
  unfold fetchAndCache
  cases net n with
  | ok r =>
      by_cases hv : r.status = 200 ∧ r.rtype = "basic"
      · simp [hv]
      · simp [hv]
  | error e =>
      by_cases hd : req.destination = "document"
      · cases mr with
        | true => simp [hd]
        | false => cases ho : cachesMatch st "/index.html" <;> simp [hd, ho]
      · simp [hd]

theorem one_le_cacheFirst_reads (isDev : Bool) (cacheName : String) (req : Request)
    (mr pr : Bool) (net : Network) (st : Stores) (n : Nat) :
    1 ≤ (cacheFirst isDev cacheName req mr pr net st n).cacheReads := by
  unfold cacheFirst
  cases mr with
  | true => simp
  | false =>
      cases hc : cachesMatch st req.url with
      | some c =>
          cases isDev with
          | true => simpa [hc] using le_fetchAndCache_reads true cacheName req false pr net st n 1
          | false => simp [hc]
      | none => simpa [hc] using le_fetchAndCache_reads isDev cacheName req false pr net st n 1

theorem cacheFirst_stores_dev (cacheName : String) (req : Request)
    (mr pr : Bool) (net : Network) (st : Stores) (n : Nat)
    (hidx : strIncludes req.url "index.html" = true) :
    (cacheFirst true cacheName req mr pr net st n).stores = st := by
  unfold cacheFirst
  cases mr with
  | true => simp
  | false =>
      cases hc : cachesMatch st req.url with
      | some c => simp [hc, fetchAndCache_stores_dev cacheName req false pr net st n 1 hidx]
      | none => simp [hc, fetchAndCache_stores_dev cacheName req false pr net st n 1 hidx]

/-- C1: for every cacheable GET request whose key is present in the blob
    store, in production mode (with the store not raising) the fetch
    handler intercepts and responds with the stored response, issuing zero
    network fetches and leaving the store unchanged. -/
theorem prod_cache_hit_serves_store_without_network
    (cacheName locOrigin : String) (req : Request) (net : Network)
    (st : Stores) (c : Response)
    (hclass : passThrough locOrigin req = false)
    (hhit : cachesMatch st req.url = some c) :
    fetchHandler false cacheName locOrigin req false false net st =
      .intercept ⟨.respond c, st, 0, 1⟩ := by
  simp [fetchHandler, hclass, runFetch, cacheFirst, hhit]

/-- Witness for C1: a concrete cacheable request hitting the production
    store is answered from it with zero network fetches. -/
theorem prod_cache_hit_serves_store_without_network_witness :
    passThrough exOrigin exReq = false ∧
    cachesMatch exStore exReq.url = some exResp ∧
    fetchHandler false "yourgpt-v1.0.0" exOrigin exReq false false netOk exStore =
      .intercept ⟨.respond exResp, exStore, 0, 1⟩ :=
  ⟨by decide, by decide,
   prod_cache_hit_serves_store_without_network "yourgpt-v1.0.0" exOrigin exReq
     netOk exStore exResp (by decide) (by decide)⟩

/-- C2: for every cacheable GET request absent from the blob store, the
    (production, cache-first) fetch handler performs exactly one live
    network fetch, responds with the network response, and an identical
    entry keyed by the request appears in the current generation's store
    afterwards if and only if the response is HTTP 200 with type basic. -/
theorem prod_cache_miss_fetches_and_stores_iff_valid
    (cacheName locOrigin : String) (req : Request) (net : Network)
    (st : Stores) (r : Response)
    (hclass : passThrough locOrigin req = false)
    (hmiss : cachesMatch st req.url = none)
    (hnet : net 0 = .ok r) :
    fetchHandler false cacheName locOrigin req false false net st =
      .intercept (runFetch false cacheName req false false net st) ∧
    (runFetch false cacheName req false false net st).outcome = .respond r ∧
    (runFetch false cacheName req false false net st).netCalls = 1 ∧
    (storesLookup (runFetch false cacheName req false false net st).stores
        cacheName req.url = some r ↔ (r.status = 200 ∧ r.rtype = "basic")) := by
  refine ⟨by simp [fetchHandler, hclass], ?_⟩
  have hrun : runFetch false cacheName req false false net st =
      fetchAndCache false cacheName req false false net st 0 1 := by
    simp [runFetch, cacheFirst, hmiss]
  rw [hrun]
  unfold fetchAndCache
  rw [hnet]
  by_cases hv : r.status = 200 ∧ r.rtype = "basic"
  · simp [hv, storesLookup_cachePut_self]
  · simp [hv, cachesMatch_none_storesLookup st cacheName req.url hmiss]

/-- Witness for C2: a concrete miss followed by a 200/basic network
    response is returned and stored under the request's URL. -/
theorem prod_cache_miss_fetches_and_stores_iff_valid_witness :
    fetchHandler false "yourgpt-v1.0.0" exOrigin exNonDocReq false false netOk [] =
      .intercept (runFetch false "yourgpt-v1.0.0" exNonDocReq false false netOk []) ∧
    (runFetch false "yourgpt-v1.0.0" exNonDocReq false false netOk []).outcome =
      .respond exResp ∧
    (runFetch false "yourgpt-v1.0.0" exNonDocReq false false netOk []).netCalls = 1 ∧
    (storesLookup (runFetch false "yourgpt-v1.0.0" exNonDocReq false false netOk []).stores
        "yourgpt-v1.0.0" exNonDocReq.url = some exResp ↔
      (exResp.status = 200 ∧ exResp.rtype = "basic")) :=
  prod_cache_miss_fetches_and_stores_iff_valid "yourgpt-v1.0.0" exOrigin exNonDocReq
    netOk [] exResp (by decide) (by decide) rfl

/-- C4: requests that are non-GET, use a browser-extension scheme, or are
    cross-origin with a hostname matching none of the four allow-listed
    substrings are never intercepted by either worker: no store read or
    write and no network fetch happens, so native handling occurs. -/
theorem passthrough_requests_untouched
    (isDev : Bool) (cacheName locOrigin : String) (req : Request)
    (mr pr : Bool) (net : Network) (st : Stores)
    (h : req.method ≠ "GET" ∨ req.protocol ∈ extensionSchemes ∨
      (req.origin ≠ locOrigin ∧ ∀ hs ∈ allowedHosts, strIncludes req.hostname hs = false)) :
    fetchHandler isDev cacheName locOrigin req mr pr net st = .passthrough ∧
    fetchHandlerSW cacheName locOrigin req mr net st = .passthrough ∧
    handlerStores st (fetchHandler isDev cacheName locOrigin req mr pr net st) = st ∧
    handlerNetCalls (fetchHandler isDev cacheName locOrigin req mr pr net st) = 0 ∧
    handlerReads (fetchHandler isDev cacheName locOrigin req mr pr net st) = 0 := by
  have hp : passThrough locOrigin req = true := by
    rcases h with h | h | h
    · simp [passThrough, bne_iff_ne, h]
    · simp [passThrough, h]
    · obtain ⟨ho, hh⟩ := h
      have h1 := hh "cdn.tailwindcss.com" (by simp [allowedHosts])
      have h2 := hh "cdn.jsdelivr.net" (by simp [allowedHosts])
      have h3 := hh "fonts.googleapis.com" (by simp [allowedHosts])
      have h4 := hh "supabase.co" (by simp [allowedHosts])
      simp [passThrough, bne_iff_ne, ho, h1, h2, h3, h4]
  simp [fetchHandler, fetchHandlerSW, hp, handlerStores, handlerNetCalls, handlerReads]

/-- Witness for C4: a concrete POST request is passed through untouched. -/
theorem passthrough_requests_untouched_witness :
    fetchHandler false "yourgpt-v1.0.0" exOrigin
      ⟨"POST", "https://yourgpt.app/api", "https:", "yourgpt.app",
       "https://yourgpt.app", ""⟩ false false netOk exStore = .passthrough ∧
    fetchHandlerSW "yourgpt-v1.0.0" exOrigin
      ⟨"POST", "https://yourgpt.app/api", "https:", "yourgpt.app",
       "https://yourgpt.app", ""⟩ false netOk exStore = .passthrough ∧
    handlerStores exStore (fetchHandler false "yourgpt-v1.0.0" exOrigin
      ⟨"POST", "https://yourgpt.app/api", "https:", "yourgpt.app",
       "https://yourgpt.app", ""⟩ false false netOk exStore) = exStore ∧
    handlerNetCalls (fetchHandler false "yourgpt-v1.0.0" exOrigin
      ⟨"POST", "https://yourgpt.app/api", "https:", "yourgpt.app",
       "https://yourgpt.app", ""⟩ false false netOk exStore) = 0 ∧
    handlerReads (fetchHandler false "yourgpt-v1.0.0" exOrigin
      ⟨"POST", "https://yourgpt.app/api", "https:", "yourgpt.app",
       "https://yourgpt.app", ""⟩ false false netOk exStore) = 0 :=
  passthrough_requests_untouched false "yourgpt-v1.0.0" exOrigin _ false false netOk
    exStore (Or.inl (by decide))

/-- Counterexample to C3: in `sw.js`, a cacheable non-document request with
    a failed network fetch and no cache entry does not reject — the `.catch`
    callback returns nothing, so the task resolves with no response. -/
theorem sw_netfail_nondocument_resolves_none :
    fetchHandlerSW "yourgpt-v1.0.0" exOrigin exNonDocReq false netFail [] =
      .intercept ⟨.respondNone, [], 1, 1⟩ ∧
    (runFetchSW "yourgpt-v1.0.0" exNonDocReq false netFail []).outcome ≠
      .reject .netErr ∧
    (runFetchSW "yourgpt-v1.0.0" exNonDocReq false netFail []).outcome ≠
      .reject .storeErr := by
  decide

/-- C3 (amended): when network and cache both fail, a document-destination
    request with `/index.html` stored is answered with the stored shell by
    both workers; otherwise the unnamed worker rethrows the network error
    (the caller observes a rejected fetch), while `sw.js` instead resolves
    with no response — both on non-document destinations and on document
    destinations with no stored shell. -/
theorem offline_fallback_behavior
    (d : Bool) (cacheName : String) (req : Request) (net : Network)
    (st : Stores) (off : Response)
    (hmiss : cachesMatch st req.url = none)
    (hnet : ∀ i, net i = .error ()) :
    (req.destination = "document" → cachesMatch st "/index.html" = some off →
      (runFetch d cacheName req false false net st).outcome = .respond off ∧
      (runFetchSW cacheName req false net st).outcome = .respond off) ∧
    (req.destination ≠ "document" →
      (runFetch d cacheName req false false net st).outcome = .reject .netErr ∧
      (runFetchSW cacheName req false net st).outcome = .respondNone) ∧
    (req.destination = "document" → cachesMatch st "/index.html" = none →
      (runFetch d cacheName req false false net st).outcome = .reject .netErr ∧
      (runFetchSW cacheName req false net st).outcome = .respondNone) := by
  refine ⟨fun hd hoff => ?_, fun hd => ?_, fun hd hoff => ?_⟩
  · cases d <;>
      simp [runFetch, cacheFirst, fetchAndCache, runFetchSW, hmiss, hnet 0, hnet 1,
        hd, hoff]
  · cases d <;>
      simp [runFetch, cacheFirst, fetchAndCache, runFetchSW, hmiss, hnet 0, hnet 1, hd]
  · cases d <;>
      simp [runFetch, cacheFirst, fetchAndCache, runFetchSW, hmiss, hnet 0, hnet 1,
        hd, hoff]

/-- Witness for C3 (amended): a concrete offline navigation is answered
    with the stored shell by both workers. -/
theorem offline_fallback_behavior_witness :
    (runFetch false "yourgpt-v1.0.0" exDocReq false false netFail exShellStore).outcome =
      .respond exShell ∧
    (runFetchSW "yourgpt-v1.0.0" exDocReq false netFail exShellStore).outcome =
      .respond exShell :=
  (offline_fallback_behavior false "yourgpt-v1.0.0" exDocReq netFail exShellStore
    exShell (by decide) (fun _ => rfl)).1 rfl (by decide)

/-- C5: activation deletes exactly the store names differing from the
    current generation (when the platform deletes succeed), always keeps
    the current generation's store, removes every stale store whose delete
    succeeded even when other deletes fail, reports counts totalling the
    enumerated names, and a delete of an absent name that resolves adds no
    failure. -/
theorem activate_deletes_stale_generations
    (cacheName : String) (deleteOk : String → Bool) (st : Stores) :
    ((∀ n, deleteOk n = true) →
      (activateHandler cacheName deleteOk st).stores =
        st.filter (fun s => s.1 = cacheName)) ∧
    (∀ s ∈ st, s.1 = cacheName → s ∈ (activateHandler cacheName deleteOk st).stores) ∧
    (∀ s ∈ st, deleteOk s.1 = true → s.1 ≠ cacheName →
      s ∉ (activateHandler cacheName deleteOk st).stores) ∧
    (activateHandler cacheName deleteOk st).successful +
      (activateHandler cacheName deleteOk st).failed = st.length ∧
    (∀ names n, deleteOk n = true →
      (activateRun cacheName deleteOk (names ++ [n]) st).failed =
        (activateRun cacheName deleteOk names st).failed) := by
  refine ⟨fun hdel => ?_, fun s hs hn => ?_, fun s hs hok hn => ?_, ?_, fun names n hn => ?_⟩
  · unfold activateHandler activateRun
    simp only []
    apply List.filter_congr
    intro s hs
    rw [hdel s.1, contains_of_mem_map_fst st s hs]
    simp
  · unfold activateHandler activateRun
    simp only []
    rw [List.mem_filter]
    exact ⟨hs, by simp [hn]⟩
  · unfold activateHandler activateRun
    simp only []
    rw [List.mem_filter]
    intro hmem
    obtain ⟨_, hpred⟩ := hmem
    rw [hok, contains_of_mem_map_fst st s hs] at hpred
    simp [hn] at hpred
  · unfold activateHandler activateRun
    simp only []
    rw [count_settles, List.length_map, List.length_map]
  · unfold activateRun
    by_cases hc : n = cacheName <;>
      simp [List.count_append, deleteSettle, hc, hn]

/-- Witness for C5: with stores `A`, `B` and the current generation and all
    platform deletes succeeding, exactly `A` and `B` are removed and two of
    the three settled deletions are reported (all as successes). -/
theorem activate_deletes_stale_generations_witness :
    (activateHandler "yourgpt-v1.0.0" (fun _ => true)
        [("A", []), ("B", []), ("yourgpt-v1.0.0", [("/index.html", exShell)])]).stores =
      List.filter (fun s => s.1 = "yourgpt-v1.0.0")
        [("A", []), ("B", []), ("yourgpt-v1.0.0", [("/index.html", exShell)])] ∧
    (activateHandler "yourgpt-v1.0.0" (fun _ => true)
        [("A", []), ("B", []), ("yourgpt-v1.0.0", [("/index.html", exShell)])]).successful +
      (activateHandler "yourgpt-v1.0.0" (fun _ => true)
        [("A", []), ("B", []), ("yourgpt-v1.0.0", [("/index.html", exShell)])]).failed = 3 :=
  ⟨(activate_deletes_stale_generations "yourgpt-v1.0.0" (fun _ => true)
      [("A", []), ("B", []), ("yourgpt-v1.0.0", [("/index.html", exShell)])]).1
      (fun _ => rfl),
   (activate_deletes_stale_generations "yourgpt-v1.0.0" (fun _ => true)
      [("A", []), ("B", []), ("yourgpt-v1.0.0", [("/index.html", exShell)])]).2.2.2.1⟩

/-- C6: two development startups at distinct timestamps mint distinct
    generation identifiers, and after activation (with the platform deletes
    succeeding) of the later generation, a `/index.html` lookup can never be
    answered out of a store named by the earlier generation — every
    surviving store carries the current identifier. -/
theorem dev_generations_fresh (t1 t2 : Nat) (h : t1 ≠ t2)
    (deleteOk : String → Bool) (st : Stores)
    (hdel : ∀ n, deleteOk n = true) :
    cacheNameOf true t1 ≠ cacheNameOf true t2 ∧
    lookupStoreName ((activateHandler (cacheNameOf true t2) deleteOk st).stores)
        "/index.html" ≠ some (cacheNameOf true t1) := by
  have hne : cacheNameOf true t1 ≠ cacheNameOf true t2 :=
    fun he => h (cacheNameOf_dev_inj he)
  refine ⟨hne, fun hl => ?_⟩
  obtain ⟨s, hs, hsn⟩ := lookupStoreName_mem _ _ _ hl
  unfold activateHandler activateRun at hs
  simp only [] at hs
  rw [List.mem_filter] at hs
  obtain ⟨hmem, hpred⟩ := hs
  rw [hdel s.1, contains_of_mem_map_fst st s hmem] at hpred
  simp at hpred
  exact hne (by rw [← hsn, hpred])

/-- Witness for C6: startups at times 1 and 2 give distinct identifiers and
    the old generation's shell store cannot answer after activation. -/
theorem dev_generations_fresh_witness :
    cacheNameOf true 1 ≠ cacheNameOf true 2 ∧
    lookupStoreName ((activateHandler (cacheNameOf true 2) (fun _ => true)
        [(cacheNameOf true 1, [("/index.html", exShell)])]).stores)
        "/index.html" ≠ some (cacheNameOf true 1) :=
  dev_generations_fresh 1 2 (by decide) (fun _ => true)
    [(cacheNameOf true 1, [("/index.html", exShell)])] (fun _ => rfl)

/-- C7: in development mode the fetch path never writes any URL containing
    `index.html` into the blob store (the store after the task equals the
    store before, for shell requests regardless of network behaviour or
    store failures), and when the initial network fetch fails the handler
    falls back to at least one blob-store lookup. -/
theorem dev_never_caches_shell_and_falls_back
    (cacheName : String) (req : Request) (mr pr : Bool) (net : Network)
    (st : Stores) :
    (strIncludes req.url "index.html" = true →
      (runFetch true cacheName req mr pr net st).stores = st) ∧
    (net 0 = .error () →
      1 ≤ (runFetch true cacheName req mr pr net st).cacheReads) := by
  constructor
  · intro hidx
    unfold runFetch
    cases hn : net 0 with
    | ok r =>
        by_cases hs : r.status = 200
        · simp [hs, cacheFirst_stores_dev cacheName req mr pr net st 1 hidx]
        · simp [hs, cacheFirst_stores_dev cacheName req mr pr net st 1 hidx]
    | error e => simp [cacheFirst_stores_dev cacheName req mr pr net st 1 hidx]
  · intro hn
    unfold runFetch
    simp [hn, one_le_cacheFirst_reads true cacheName req mr pr net st 1]

/-- Witness for C7: a development-mode shell request over a dead network
    leaves the store unchanged and consults it. -/
theorem dev_never_caches_shell_and_falls_back_witness :
    (runFetch true "yourgpt-dev-1" exShellReq false false netFail exShellStore).stores =
      exShellStore ∧
    1 ≤ (runFetch true "yourgpt-dev-1" exShellReq false false netFail exShellStore).cacheReads :=
  ⟨(dev_never_caches_shell_and_falls_back "yourgpt-dev-1" exShellReq false false
      netFail exShellStore).1 (by decide),
   (dev_never_caches_shell_and_falls_back "yourgpt-dev-1" exShellReq false false
      netFail exShellStore).2 rfl⟩

/-- C8 (code bug): the install handler attaches `.catch(error => null)` to
    each `cache.add` before `Promise.allSettled` tallies them, so every
    settled status is fulfilled.  With the CDN seed failing, the report
    still counts every seed as successful and zero as failed, although the
    failed seed stored nothing. -/
theorem install_miscounts_failed_seeds :
    (installRun "yourgpt-v1.0.0" urlsToCache exSeedOk exSeedResp []).failed = 0 ∧
    (installRun "yourgpt-v1.0.0" urlsToCache exSeedOk exSeedResp []).successful =
      urlsToCache.length ∧
    storesLookup (installRun "yourgpt-v1.0.0" urlsToCache exSeedOk exSeedResp []).stores
      "yourgpt-v1.0.0" "https://cdn.jsdelivr.net/npm/marked/marked.min.js" = none ∧
    storesLookup (installRun "yourgpt-v1.0.0" urlsToCache exSeedOk exSeedResp []).stores
      "yourgpt-v1.0.0" "/index.html" = some (exSeedResp "/index.html") := by
  decide

/-- Counterexample to C9: in the unnamed worker the production-path
    `await caches.match` is not wrapped in any `try`/`catch`, so a raising
    store lookup is not treated as a miss — the fetch task rejects with the
    store error. -/
theorem unguarded_cache_match_failure_propagates :
    fetchHandler false "yourgpt-v1.0.0" exOrigin exReq true false netOk exStore =
      .intercept ⟨.reject .storeErr, exStore, 0, 1⟩ := by
  decide

/-- C9 (amended): a raising `caches.open`/`cache.put` during the cache
    write is caught at the call site and degrades to a no-op (the response
    is still returned), and in `sw.js` a raising `caches.match` is caught by
    the outer catch and degrades to a plain network fetch; but in the
    unnamed worker the unguarded `caches.match` of the cache-first path
    propagates its failure out of the fetch task. -/
theorem store_failure_handling
    (cacheName : String) (req : Request) (net : Network) (st : Stores) (r : Response)
    (hmiss : cachesMatch st req.url = none) (hnet : net 0 = .ok r)
    (hvalid : r.status = 200 ∧ r.rtype = "basic") :
    (runFetch false cacheName req false true net st).outcome = .respond r ∧
    (runFetch false cacheName req false true net st).stores = st ∧
    (runFetch false cacheName req true false net st).outcome = .reject .storeErr ∧
    (runFetchSW cacheName req true net st).outcome = .respond r ∧
    (runFetchSW cacheName req true net st).netCalls = 1 := by
  refine ⟨?_, ?_, ?_, ?_, ?_⟩
  · simp [runFetch, cacheFirst, hmiss, fetchAndCache, hnet, hvalid]
  · simp [runFetch, cacheFirst, hmiss, fetchAndCache, hnet, hvalid]
  · simp [runFetch, cacheFirst]
  · simp [runFetchSW, hnet]
  · simp [runFetchSW, hnet]

/-- Witness for C9 (amended): a concrete request over a working network
    with a raising cache write still gets its response; with a raising
    cache read the unnamed worker rejects and `sw.js` refetches. -/
theorem store_failure_handling_witness :
    (runFetch false "yourgpt-v1.0.0" exReq false true netOk []).outcome =
      .respond exResp ∧
    (runFetch false "yourgpt-v1.0.0" exReq false true netOk []).stores = [] ∧
    (runFetch false "yourgpt-v1.0.0" exReq true false netOk []).outcome =
      .reject .storeErr ∧
    (runFetchSW "yourgpt-v1.0.0" exReq true netOk []).outcome = .respond exResp ∧
    (runFetchSW "yourgpt-v1.0.0" exReq true netOk []).netCalls = 1 :=
  store_failure_handling "yourgpt-v1.0.0" exReq netOk [] exResp rfl rfl (by decide)

/-- C10: a push signal carrying no payload data makes the handler do
    nothing: no notification request, no other action, and (the handler
    never touching the Cache Storage) the blob store is unaffected. -/
theorem push_without_payload_is_noop : pushHandler none = [] := rfl

end YourGPT
